import Mathlib

/-!
# OjassGuardSystem backend — shallow embedding and verification

This file embeds the two controller modules of the OjassGuardSystem
backend (`src/backend/src/controllers/user.controller.js` and
`src/backend/src/controllers/guard.controller.js`) as pure Lean
functions over an explicit database state, and proves the specified
properties about registration, login, logout, token refresh/rotation,
the approval action, work-percent updates and the read/list endpoints.

Conventions of the embedding:
* MongoDB document ids are `Nat`.
* JWT tokens are the inductive `Token`; issuing a token consumes a
  nonce from the state counter `nextNonce`, which stands for the
  freshness (issued-at / randomness) of a real JWT.
* Each controller is a function `Req → St → Except ApiError Resp × St`:
  the `Except` value is the thrown `ApiError` or the JSON response, and
  the second component is the database state after the call (errors are
  thrown before any write in these controllers, so the state is
  returned unchanged on the error branches that the code takes).
* JavaScript falsiness of possibly-absent strings (`!x` is true for
  `undefined` and `""`) is modelled by `strFalsy` on `Option String`,
  and `a || b` on tokens by `jsOr`.
-/

/-- A JWT as issued by `generateAccessToken` / `generateRefreshToken`
(modelled from the spec: JWT issuance embeds the account id; the nonce
stands for issued-at/randomness making successive tokens distinct), or
an arbitrary other string presented by a client. -/
inductive Token where
  | access (id : Nat) (nonce : Nat)
  | refresh (id : Nat) (nonce : Nat)
  | invalid (s : String)
deriving DecidableEq, Repr

/-- JavaScript falsiness of a token value: a real JWT is a non-empty
string, so only the empty foreign string is falsy. -/
def Token.falsy : Token → Bool
  | .invalid s => s == ""
  | _ => false

/-- `a || b` on `req.cookies?.refreshToken || req.body.refreshToken`:
the first operand is returned if truthy, otherwise the second. -/
def jsOr (a b : Option Token) : Option Token :=
  match a with
  | some t => if t.falsy then b else some t
  | none => b

/-- Collapses a JS-falsy token value to `none`, so that matching on
`none` models the `if (!incomingRefreshToken)` test. -/
def truthyToken : Option Token → Option Token
  | some t => if t.falsy then none else some t
  | none => none

/-- Modelled from the spec: `jwt.verify(token, REFRESH_TOKEN_SECRET)`
succeeds exactly on tokens issued as refresh tokens and returns the
decoded payload's `_id`; on anything else it throws (here: `none`). -/
def verifyRefreshToken : Token → Option Nat
  | .refresh id _ => some id
  | _ => none

/-- JavaScript falsiness of a possibly-absent string field. -/
def strFalsy : Option String → Bool
  | none => true
  | some s => s == ""

/-- JavaScript falsiness of a possibly-absent number field
(`!age` is true for `undefined` and `0`). -/
def intFalsy : Option Int → Bool
  | none => true
  | some v => v == 0

/-- Collapses a JS-falsy string value to `none`, so that matching on
`none` models tests such as `if (!avatarLocalPath)`. -/
def truthyStr : Option String → Option String
  | some s => if s == "" then none else some s
  | none => none

/-- The uniform application error: `new ApiError(status, message)`. -/
structure ApiError where
  status : Nat
  message : String
deriving DecidableEq, Repr

/-- A stored `User` document. -/
structure UserDoc where
  id : Nat
  userName : String
  fullName : String
  email : String
  password : String
  avatar : String
  role : String
  refreshToken : Option Token
deriving DecidableEq, Repr

/-- A stored `Guard` document. -/
structure GuardDoc where
  id : Nat
  userName : String
  fullName : String
  email : String
  password : String
  avatar : String
  residence : String
  description : String
  age : Int
  workHistory : List String
  isApproved : Bool
  workPercent : Int
  refreshToken : Option Token
deriving DecidableEq, Repr

/-- A stored `Complain` document. -/
structure ComplainDoc where
  id : Nat
  complain : String
  guard : Nat
deriving DecidableEq, Repr

/-- A stored `Appreciation` document. -/
structure AppreciationDoc where
  id : Nat
  message : String
  guard : Nat
deriving DecidableEq, Repr

/-- Modelled from the spec: a `Location` document holds a guard
reference and coordinates (the model file is not part of the sources). -/
structure LocationDoc where
  id : Nat
  guard : Nat
  name : String
  latitude : Int
  longitude : Int
deriving DecidableEq, Repr

/-- The database state, together with the id and nonce counters that
stand for MongoDB id generation and JWT freshness. -/
structure St where
  users : List UserDoc
  guards : List GuardDoc
  complains : List ComplainDoc
  appreciations : List AppreciationDoc
  locations : List LocationDoc
  nextId : Nat
  nextNonce : Nat
deriving DecidableEq, Repr

/-- External environment: the Cloudinary upload client
(`uploadOnCloudinary` returns the hosted asset or `null`). -/
structure Env where
  uploadOnCloudinary : String → Option String

/-- `User.findById`. -/
def findUserById (users : List UserDoc) (id : Nat) : Option UserDoc :=
  users.find? (fun u => u.id == id)

/-- `Guard.findById`. -/
def findGuardById (guards : List GuardDoc) (id : Nat) : Option GuardDoc :=
  guards.find? (fun g => g.id == id)

/-- The `$or: [{userName}, {email}]` filter: a branch whose request
value is absent matches nothing. -/
def matchesNameOrEmail (uN e : Option String) (docName docEmail : String) : Bool :=
  (match uN with | some s => docName == s | none => false) ||
  (match e with | some s => docEmail == s | none => false)

/-- `User.findOne({$or: [{userName}, {email}]})`. -/
def findUserByNameOrEmail (users : List UserDoc) (uN e : Option String) : Option UserDoc :=
  users.find? (fun u => matchesNameOrEmail uN e u.userName u.email)

/-- `Guard.findOne({$or: [{userName}, {email}]})`. -/
def findGuardByNameOrEmail (guards : List GuardDoc) (uN e : Option String) : Option GuardDoc :=
  guards.find? (fun g => matchesNameOrEmail uN e g.userName g.email)

/-- Modelled from the spec: `isPasswordCorrect` compares the supplied
password against the stored credential (bcrypt compare in the missing
model file); an absent supplied password matches nothing. -/
def isPasswordCorrect (supplied : Option String) (stored : String) : Bool :=
  supplied == some stored

/-- The `-password -refreshToken` projection of a user document. -/
structure PublicUser where
  id : Nat
  userName : String
  fullName : String
  email : String
  avatar : String
  role : String
deriving DecidableEq, Repr

/-- The `-password -refreshToken` projection of a guard document. -/
structure PublicGuard where
  id : Nat
  userName : String
  fullName : String
  email : String
  avatar : String
  residence : String
  description : String
  age : Int
  workHistory : List String
  isApproved : Bool
  workPercent : Int
deriving DecidableEq, Repr

/-- `.select("-password -refreshToken")` on a user. -/
def publicUser (u : UserDoc) : PublicUser :=
  ⟨u.id, u.userName, u.fullName, u.email, u.avatar, u.role⟩

/-- `.select("-password -refreshToken")` on a guard. -/
def publicGuard (g : GuardDoc) : PublicGuard :=
  ⟨g.id, g.userName, g.fullName, g.email, g.avatar, g.residence,
   g.description, g.age, g.workHistory, g.isApproved, g.workPercent⟩

/-! ## `generateAccessAndRefreshTokens` (user and guard variants) -/

/-- Sets the refresh token of the user with the given id. -/
def setUserRefreshToken (users : List UserDoc) (id : Nat) (t : Token) : List UserDoc :=
  users.map (fun u => if u.id == id then { u with refreshToken := some t } else u)

/-- Sets the refresh token of the guard with the given id. -/
def setGuardRefreshToken (guards : List GuardDoc) (id : Nat) (t : Token) : List GuardDoc :=
  guards.map (fun g => if g.id == id then { g with refreshToken := some t } else g)

/-- `generateAccessAndRefreshTokens(userId)` from user.controller.js:
looks the user up, issues both tokens, persists the refresh token on
the document and returns the pair. -/
def userGenerateTokens (userId : Nat) (st : St) :
    Except ApiError (Token × Token) × St :=
  match findUserById st.users userId with
  | none => (.error ⟨404, "User not found"⟩, st)
  | some _ =>
    let accessToken := Token.access userId st.nextNonce
    let refreshToken := Token.refresh userId (st.nextNonce + 1)
    (.ok (accessToken, refreshToken),
     { st with users := setUserRefreshToken st.users userId refreshToken,
               nextNonce := st.nextNonce + 2 })

/-- `generateAccessAndRefreshTokens(guardId)` from guard.controller.js. -/
def guardGenerateTokens (guardId : Nat) (st : St) :
    Except ApiError (Token × Token) × St :=
  match findGuardById st.guards guardId with
  | none => (.error ⟨404, "Guard not found"⟩, st)
  | some _ =>
    let accessToken := Token.access guardId st.nextNonce
    let refreshToken := Token.refresh guardId (st.nextNonce + 1)
    (.ok (accessToken, refreshToken),
     { st with guards := setGuardRefreshToken st.guards guardId refreshToken,
               nextNonce := st.nextNonce + 2 })

/-! ## Registration -/

/-- Request body (and uploaded file) of `POST /register` for users. -/
structure RegisterUserReq where
  userName : Option String
  fullName : Option String
  email : Option String
  password : Option String
  role : Option String
  avatarPath : Option String
deriving DecidableEq, Repr

/-- Response of a successful registration: status 201 and the created
document without password and refreshToken. -/
structure RegisterUserResp where
  status : Nat
  data : PublicUser
deriving DecidableEq, Repr

/-- `registerUser` from user.controller.js. -/
def registerUser (env : Env) (req : RegisterUserReq) (st : St) :
    Except ApiError RegisterUserResp × St :=
  if strFalsy req.userName || strFalsy req.fullName ||
     strFalsy req.email || strFalsy req.password then
    (.error ⟨400, "All fields are required"⟩, st)
  else
    match findUserByNameOrEmail st.users req.userName req.email with
    | some _ => (.error ⟨409, "User already exists"⟩, st)
    | none =>
      match truthyStr req.avatarPath with
      | none => (.error ⟨400, "Avatar image is required"⟩, st)
      | some path =>
        match env.uploadOnCloudinary path with
        | none => (.error ⟨500, "Failed to upload avatar"⟩, st)
        | some url =>
          let newUser : UserDoc :=
            { id := st.nextId,
              userName := (req.userName.getD "").toLower,
              fullName := req.fullName.getD "",
              email := req.email.getD "",
              password := req.password.getD "",
              avatar := url,
              role := req.role.getD "user",
              refreshToken := none }
          (.ok { status := 201, data := publicUser newUser },
           { st with users := st.users ++ [newUser], nextId := st.nextId + 1 })

/-- Request body (and uploaded file) of `POST /register` for guards. -/
structure RegisterGuardReq where
  userName : Option String
  fullName : Option String
  email : Option String
  password : Option String
  residence : Option String
  description : Option String
  age : Option Int
  workHistory : Option String
  avatarPath : Option String
deriving DecidableEq, Repr

/-- Response of a successful guard registration. -/
structure RegisterGuardResp where
  status : Nat
  data : PublicGuard
deriving DecidableEq, Repr

/-- `JSON.parse(workHistory)` followed by the `Array.isArray` check:
either a JSON array of strings, or a parse failure / non-array value. -/
inductive ParsedJson where
  | arr (items : List String)
  | notAnArray
deriving DecidableEq, Repr

/-- Modelled from the spec: the JSON parser applied to the raw
`workHistory` body string (the parser itself is library code). -/
structure JsonEnv where
  parse : String → ParsedJson

/-- `registerGuard` from guard.controller.js. -/
def registerGuard (env : Env) (jenv : JsonEnv) (req : RegisterGuardReq) (st : St) :
    Except ApiError RegisterGuardResp × St :=
  if strFalsy req.userName || strFalsy req.fullName || strFalsy req.email ||
     strFalsy req.password || strFalsy req.residence ||
     strFalsy req.description || intFalsy req.age then
    (.error ⟨400, "All fields are required"⟩, st)
  else
    match findGuardByNameOrEmail st.guards req.userName req.email with
    | some _ => (.error ⟨409, "Guard already exists"⟩, st)
    | none =>
      match truthyStr req.avatarPath with
      | none => (.error ⟨400, "Avatar image is required"⟩, st)
      | some path =>
        match env.uploadOnCloudinary path with
        | none => (.error ⟨500, "Failed to upload avatar"⟩, st)
        | some url =>
          match (truthyStr req.workHistory).map jenv.parse with
          | some .notAnArray =>
            (.error ⟨400, "Invalid workHistory format. Must be a JSON array."⟩, st)
          | parsed =>
            let parsedWorkHistory :=
              match parsed with
              | some (.arr items) => items
              | _ => []
            let newGuard : GuardDoc :=
              { id := st.nextId,
                userName := (req.userName.getD "").toLower,
                fullName := req.fullName.getD "",
                email := req.email.getD "",
                password := req.password.getD "",
                avatar := url,
                residence := req.residence.getD "",
                description := req.description.getD "",
                age := req.age.getD 0,
                workHistory := parsedWorkHistory,
                isApproved := false,
                workPercent := 0,
                refreshToken := none }
            (.ok { status := 201, data := publicGuard newGuard },
             { st with guards := st.guards ++ [newGuard], nextId := st.nextId + 1 })

/-! ## Login and logout -/

/-- Request body of `POST /login`. -/
structure LoginReq where
  email : Option String
  userName : Option String
  password : Option String
deriving DecidableEq, Repr

/-- Response of a successful user login: status 200, the two cookies,
and the body embedding the selected document (which was fetched with
`+password +refreshToken`) together with both tokens. -/
structure LoginUserResp where
  status : Nat
  accessCookie : Token
  refreshCookie : Token
  user : UserDoc
  accessToken : Token
  refreshToken : Token
deriving DecidableEq, Repr

/-- Response of a successful guard login. -/
structure LoginGuardResp where
  status : Nat
  accessCookie : Token
  refreshCookie : Token
  guard : GuardDoc
  accessToken : Token
  refreshToken : Token
deriving DecidableEq, Repr

/-- `loginUser` from user.controller.js. -/
def loginUser (req : LoginReq) (st : St) : Except ApiError LoginUserResp × St :=
  if strFalsy req.email && strFalsy req.userName then
    (.error ⟨400, "Provide either username or email"⟩, st)
  else
    match findUserByNameOrEmail st.users req.userName req.email with
    | none => (.error ⟨404, "User not found"⟩, st)
    | some user =>
      if !(isPasswordCorrect req.password user.password) then
        (.error ⟨401, "Invalid credentials"⟩, st)
      else
        match userGenerateTokens user.id st with
        | (.error e, st') => (.error e, st')
        | (.ok (accessToken, refreshToken), st') =>
          (.ok { status := 200, accessCookie := accessToken,
                 refreshCookie := refreshToken, user := user,
                 accessToken := accessToken, refreshToken := refreshToken },
           st')

/-- `loginGuard` from guard.controller.js. -/
def loginGuard (req : LoginReq) (st : St) : Except ApiError LoginGuardResp × St :=
  if strFalsy req.email && strFalsy req.userName then
    (.error ⟨400, "Provide either username or email"⟩, st)
  else
    match findGuardByNameOrEmail st.guards req.userName req.email with
    | none => (.error ⟨404, "Guard not found"⟩, st)
    | some guard =>
      if !(isPasswordCorrect req.password guard.password) then
        (.error ⟨401, "Invalid credentials"⟩, st)
      else
        match guardGenerateTokens guard.id st with
        | (.error e, st') => (.error e, st')
        | (.ok (accessToken, refreshToken), st') =>
          (.ok { status := 200, accessCookie := accessToken,
                 refreshCookie := refreshToken, guard := guard,
                 accessToken := accessToken, refreshToken := refreshToken },
           st')

/-- Request of a protected route: `req.user` was attached by the
`verifyJWT` middleware, so its id is present. -/
structure AuthedReq where
  userId : Nat
deriving DecidableEq, Repr

/-- Response of logout: status 200, both cookies cleared, empty body. -/
structure LogoutResp where
  status : Nat
  clearedAccessCookie : Bool
  clearedRefreshCookie : Bool
deriving DecidableEq, Repr

/-- `logoutUser`: `$unset`s the stored refreshToken and clears cookies. -/
def logoutUser (req : AuthedReq) (st : St) : Except ApiError LogoutResp × St :=
  (.ok { status := 200, clearedAccessCookie := true, clearedRefreshCookie := true },
   { st with users := st.users.map (fun u =>
       if u.id == req.userId then { u with refreshToken := none } else u) })

/-- `logoutGuard`. -/
def logoutGuard (req : AuthedReq) (st : St) : Except ApiError LogoutResp × St :=
  (.ok { status := 200, clearedAccessCookie := true, clearedRefreshCookie := true },
   { st with guards := st.guards.map (fun g =>
       if g.id == req.userId then { g with refreshToken := none } else g) })

/-! ## Token refresh -/

/-- A request carrying a possible refresh token in cookies and body. -/
structure RefreshReq where
  cookieRefreshToken : Option Token
  bodyRefreshToken : Option Token
deriving DecidableEq, Repr

/-- Response of a successful token refresh: status 200, both cookies
set, and both tokens in the body. -/
structure RefreshResp where
  status : Nat
  accessCookie : Token
  refreshCookie : Token
  accessToken : Token
  refreshToken : Token
deriving DecidableEq, Repr

/-- What the `try` block of `getAccessToken` can throw: the
`JsonWebTokenError` of a failing `jwt.verify`, or an `ApiError` raised
inside the block. -/
inductive RefreshFailure where
  | jwtError
  | api (e : ApiError)
deriving DecidableEq, Repr

/-- The body of the `try` block of the user `getAccessToken`: verify
the incoming token, look the user up with `+refreshToken`, compare with
the stored token, then rotate. -/
def userRefreshAttempt (tok : Token) (st : St) :
    Except RefreshFailure RefreshResp × St :=
  match verifyRefreshToken tok with
  | none => (.error .jwtError, st)
  | some decodedId =>
    match findUserById st.users decodedId with
    | none => (.error (.api ⟨403, "Invalid or expired refresh token"⟩), st)
    | some user =>
      if some tok != user.refreshToken then
        (.error (.api ⟨403, "Invalid or expired refresh token"⟩), st)
      else
        match userGenerateTokens user.id st with
        | (.error e, st') => (.error (.api e), st')
        | (.ok (accessToken, refreshToken), st') =>
          (.ok { status := 200, accessCookie := accessToken,
                 refreshCookie := refreshToken,
                 accessToken := accessToken, refreshToken := refreshToken },
           st')

/-- The body of the `try` block of the guard `getAccessToken`. -/
def guardRefreshAttempt (tok : Token) (st : St) :
    Except RefreshFailure RefreshResp × St :=
  match verifyRefreshToken tok with
  | none => (.error .jwtError, st)
  | some decodedId =>
    match findGuardById st.guards decodedId with
    | none => (.error (.api ⟨403, "Invalid or expired refresh token"⟩), st)
    | some guard =>
      if some tok != guard.refreshToken then
        (.error (.api ⟨403, "Invalid or expired refresh token"⟩), st)
      else
        match guardGenerateTokens guard.id st with
        | (.error e, st') => (.error (.api e), st')
        | (.ok (accessToken, refreshToken), st') =>
          (.ok { status := 200, accessCookie := accessToken,
                 refreshCookie := refreshToken,
                 accessToken := accessToken, refreshToken := refreshToken },
           st')

/-- `getAccessToken` from user.controller.js: reject an absent token
with 401, and turn every failure of the `try` block — the internal 403
included — into 401 "Invalid refresh token" via the `catch`. -/
def userGetAccessToken (req : RefreshReq) (st : St) :
    Except ApiError RefreshResp × St :=
  match truthyToken (jsOr req.cookieRefreshToken req.bodyRefreshToken) with
  | none => (.error ⟨401, "Unauthorized request"⟩, st)
  | some tok =>
    match userRefreshAttempt tok st with
    | (.ok r, st') => (.ok r, st')
    | (.error _, st') => (.error ⟨401, "Invalid refresh token"⟩, st')

/-- `getAccessToken` from guard.controller.js. -/
def guardGetAccessToken (req : RefreshReq) (st : St) :
    Except ApiError RefreshResp × St :=
  match truthyToken (jsOr req.cookieRefreshToken req.bodyRefreshToken) with
  | none => (.error ⟨401, "Unauthorized request"⟩, st)
  | some tok =>
    match guardRefreshAttempt tok st with
    | (.ok r, st') => (.ok r, st')
    | (.error _, st') => (.error ⟨401, "Invalid refresh token"⟩, st')

/-- Response of `checkRefreshToken`: the HTTP status and the `status`
field of the `{ status }` JSON body. -/
structure CheckResp where
  status : Nat
  bodyStatus : Nat
deriving DecidableEq, Repr

/-- `checkRefreshToken` from user.controller.js: 200 when a (truthy)
refresh token is in the cookies or body, 401 otherwise; never throws,
never verifies, never writes. -/
def userCheckRefreshToken (req : RefreshReq) (st : St) :
    Except ApiError CheckResp × St :=
  let present := (truthyToken (jsOr req.cookieRefreshToken req.bodyRefreshToken)).isSome
  (.ok { status := if present then 200 else 401,
         bodyStatus := if present then 200 else 401 }, st)

/-- `checkRefreshToken` from guard.controller.js (identical). -/
def guardCheckRefreshToken (req : RefreshReq) (st : St) :
    Except ApiError CheckResp × St :=
  let present := (truthyToken (jsOr req.cookieRefreshToken req.bodyRefreshToken)).isSome
  (.ok { status := if present then 200 else 401,
         bodyStatus := if present then 200 else 401 }, st)

/-! ## Current-account and lookup endpoints -/

/-- Response embedding the middleware-attached account (already free of
password and refreshToken, which are `select: false` in the schema). -/
structure CurrentUserResp where
  status : Nat
  data : Option PublicUser
deriving DecidableEq, Repr

/-- `getCurrentUser`: echoes `req.user` with status 200. -/
def getCurrentUser (reqUser : Option PublicUser) (st : St) :
    Except ApiError CurrentUserResp × St :=
  (.ok { status := 200, data := reqUser }, st)

/-- Response embedding the middleware-attached guard. -/
structure CurrentGuardResp where
  status : Nat
  data : Option PublicGuard
deriving DecidableEq, Repr

/-- `getCurrentGuard`: echoes `req.user` with status 200. -/
def getCurrentGuard (reqUser : Option PublicGuard) (st : St) :
    Except ApiError CurrentGuardResp × St :=
  (.ok { status := 200, data := reqUser }, st)

/-- Response of `getUser`: status 200 and the projected document. -/
structure GetUserResp where
  status : Nat
  data : PublicUser
deriving DecidableEq, Repr

/-- `getUser` from user.controller.js: find by trimmed username,
project away password and refreshToken. -/
def getUser (userNameParam : Option String) (st : St) :
    Except ApiError GetUserResp × St :=
  match truthyStr userNameParam with
  | none => (.error ⟨400, "Username is required"⟩, st)
  | some userName =>
    match st.users.find? (fun u => u.userName == userName.trim) with
    | none => (.error ⟨404, "User not found"⟩, st)
    | some user => (.ok { status := 200, data := publicUser user }, st)

/-- Response of `getGuard`. -/
structure GetGuardResp where
  status : Nat
  data : PublicGuard
deriving DecidableEq, Repr

/-- `getGuard` from guard.controller.js. -/
def getGuard (userNameParam : Option String) (st : St) :
    Except ApiError GetGuardResp × St :=
  match truthyStr userNameParam with
  | none => (.error ⟨400, "Username is required"⟩, st)
  | some userName =>
    match st.guards.find? (fun g => g.userName == userName.trim) with
    | none => (.error ⟨404, "Guard not found"⟩, st)
    | some guard => (.ok { status := 200, data := publicGuard guard }, st)

/-! ## Admin action and appreciation -/

/-- Request of `authoriseGuard`: body `complain` and param `guardId`
(a syntactically invalid ObjectId is replaced in the code by a freshly
generated one, which no stored document has; `guardId = some id` here
stands for a valid id, and a fresh never-stored id plays the role of
the replacement). -/
structure AuthoriseReq where
  complain : Option String
  guardId : Option Nat
deriving DecidableEq, Repr

/-- Response of `authoriseGuard`: status 200 and the saved guard (as
fetched by `findById`, i.e. without the `select: false` secrets). -/
structure AuthoriseResp where
  status : Nat
  data : PublicGuard
deriving DecidableEq, Repr

/-- `authoriseGuard` from user.controller.js: requires feedback, sets
`isApproved` to `false` on the guard, saves, and records a `Complain`. -/
def authoriseGuard (req : AuthoriseReq) (st : St) :
    Except ApiError AuthoriseResp × St :=
  if strFalsy req.complain then
    (.error ⟨400, "You must provide feedback"⟩, st)
  else
    match req.guardId with
    | none => (.error ⟨400, "Guard ID is missing"⟩, st)
    | some guardId =>
      match findGuardById st.guards guardId with
      | none => (.error ⟨404, "Guard not found"⟩, st)
      | some guard =>
        let saved := { guard with isApproved := false }
        let comp : ComplainDoc :=
          { id := st.nextId, complain := req.complain.getD "", guard := guardId }
        (.ok { status := 200, data := publicGuard saved },
         { st with
             guards := st.guards.map (fun g => if g.id == guardId then saved else g),
             complains := st.complains ++ [comp],
             nextId := st.nextId + 1 })

/-- Request of `appreciateGuard`: the authenticated user id, the body
`message` and the param `guardId`. -/
structure AppreciateReq where
  userId : Option Nat
  message : Option String
  guardId : Option Nat
deriving DecidableEq, Repr

/-- Response of `appreciateGuard`: status 200 and the new document. -/
structure AppreciateResp where
  status : Nat
  data : AppreciationDoc
deriving DecidableEq, Repr

/-- `appreciateGuard` from user.controller.js. -/
def appreciateGuard (req : AppreciateReq) (st : St) :
    Except ApiError AppreciateResp × St :=
  match req.userId with
  | none => (.error ⟨400, "Your ID is missing"⟩, st)
  | some userId =>
    if strFalsy req.message then
      (.error ⟨400, "You must provide appreciation feedback"⟩, st)
    else
      match findUserById st.users userId with
      | none => (.error ⟨400, "User not found"⟩, st)
      | some _ =>
        match req.guardId with
        | none => (.error ⟨400, "Guard ID is missing"⟩, st)
        | some guardId =>
          match findGuardById st.guards guardId with
          | none => (.error ⟨404, "Guard not found"⟩, st)
          | some _ =>
            let appreciation : AppreciationDoc :=
              { id := st.nextId, message := req.message.getD "", guard := guardId }
            (.ok { status := 200, data := appreciation },
             { st with appreciations := st.appreciations ++ [appreciation],
                       nextId := st.nextId + 1 })

/-! ## Guard listing endpoints -/

/-- Response of a list of projected guards. -/
structure GuardListResp where
  status : Nat
  data : List PublicGuard
deriving DecidableEq, Repr

/-- `listAutherisedGuards`: `Guard.find({isApproved: true})` with the
`-password -refreshToken` projection; 404 on an empty result. -/
def listAutherisedGuards (st : St) : Except ApiError GuardListResp × St :=
  let authorisedGuards := (st.guards.filter (fun g => g.isApproved)).map publicGuard
  if authorisedGuards.isEmpty then
    (.error ⟨404, "No unauthorised guards found"⟩, st)
  else
    (.ok { status := 200, data := authorisedGuards }, st)

/-- `listUnassignedGuards`: the aggregation `$lookup` of locations by
guard reference, `$match` on an empty lookup, and a `$project` dropping
password and refreshToken. -/
def listUnassignedGuards (st : St) : Except ApiError GuardListResp × St :=
  let data := (st.guards.filter
      (fun g => (st.locations.filter (fun loc => loc.guard == g.id)).isEmpty)).map
    publicGuard
  if data.isEmpty then
    (.error ⟨404, "No unassigned guards found"⟩, st)
  else
    (.ok { status := 200, data := data }, st)

/-- One row of the `listAuthorisedGuards` aggregation after `$unwind`:
the location document joined with its (projected) guard. -/
structure AssignmentRow where
  location : LocationDoc
  guardDetails : PublicGuard
deriving DecidableEq, Repr

/-- Response of `listAuthorisedGuards`. -/
structure AssignmentListResp where
  status : Nat
  data : List AssignmentRow
deriving DecidableEq, Repr

/-- The `Location.aggregate` pipeline of `listAuthorisedGuards`:
`$lookup` guards by id, `$unwind`, `$match` on `isApproved`, `$project`
away the guard's password and refreshToken. -/
def authorisedAssignments (st : St) : List AssignmentRow :=
  st.locations.flatMap (fun loc =>
    ((st.guards.filter (fun g => g.id == loc.guard)).filter
        (fun g => g.isApproved)).map
      (fun g => { location := loc, guardDetails := publicGuard g }))

/-- `listAuthorisedGuards` from guard.controller.js. -/
def listAuthorisedGuards (st : St) : Except ApiError AssignmentListResp × St :=
  let data := authorisedAssignments st
  if data.isEmpty then
    (.error ⟨404, "No authorised guards found"⟩, st)
  else
    (.ok { status := 200, data := data }, st)

/-- Response of `getSingleGuardAssignment`. -/
structure DeploymentResp where
  status : Nat
  data : List LocationDoc
deriving DecidableEq, Repr

/-- `getSingleGuardAssignment`: the locations matching the
authenticated guard; 404 when unauthenticated or unassigned. -/
def getSingleGuardAssignment (reqUserId : Option Nat) (st : St) :
    Except ApiError DeploymentResp × St :=
  match reqUserId with
  | none => (.error ⟨404, "NOT AUTHENTICATED"⟩, st)
  | some guardId =>
    let deployment := st.locations.filter (fun loc => loc.guard == guardId)
    if deployment.isEmpty then
      (.error ⟨404, "Deployment not found"⟩, st)
    else
      (.ok { status := 200, data := deployment }, st)

/-! ## Work percent -/

/-- Request of `updateWorkPercent`: the authenticated guard id and the
body value. -/
structure WorkPercentReq where
  userId : Option Nat
  workPercent : Option Int
deriving DecidableEq, Repr

/-- Response of `updateWorkPercent`: status 200 and the updated guard
without password and refreshToken. -/
structure WorkPercentResp where
  status : Nat
  data : PublicGuard
deriving DecidableEq, Repr

/-- `updateWorkPercent` from guard.controller.js: 400 unless the value
is present and within 0–100, otherwise `findByIdAndUpdate` with
`{new: true}` and the `-password -refreshToken` projection. -/
def updateWorkPercent (req : WorkPercentReq) (st : St) :
    Except ApiError WorkPercentResp × St :=
  match req.userId with
  | none => (.error ⟨404, "Guard not found or not authenticated"⟩, st)
  | some guardId =>
    match req.workPercent with
    | none =>
      (.error ⟨400, "Invalid work percent value (must be between 0-100)"⟩, st)
    | some workPercent =>
      if workPercent < 0 || workPercent > 100 then
        (.error ⟨400, "Invalid work percent value (must be between 0-100)"⟩, st)
      else
        match findGuardById st.guards guardId with
        | none => (.error ⟨500, "Failed to update work percent"⟩, st)
        | some guard =>
          let updatedGuard := { guard with workPercent := workPercent }
          let newGuards := st.guards.map
            (fun g => if g.id == guardId then { g with workPercent := workPercent } else g)
          (.ok { status := 200, data := publicGuard updatedGuard },
           { st with guards := newGuards })

-- Decidable equality of controller results, for concrete evaluation.
deriving instance DecidableEq for Except

/-! ## Concrete fixtures used by witnesses and counterexamples -/

/-- A Cloudinary client that hosts every asset. -/
def env0 : Env := ⟨fun p => some ("https://cloud/" ++ p)⟩

/-- A JSON parser oracle for requests that carry no workHistory. -/
def jenv0 : JsonEnv := ⟨fun _ => .notAnArray⟩

/-- A stored user with a live refresh token. -/
def user1 : UserDoc :=
  { id := 1, userName := "alice", fullName := "Alice Smith",
    email := "alice@example.com", password := "pw1",
    avatar := "https://cloud/alice.png", role := "user",
    refreshToken := some (.refresh 1 0) }

/-- A stored unapproved guard. -/
def guard1 : GuardDoc :=
  { id := 2, userName := "bob", fullName := "Bob Jones",
    email := "bob@example.com", password := "pw2",
    avatar := "https://cloud/bob.png", residence := "Pune",
    description := "night shift", age := 30, workHistory := ["site A"],
    isApproved := false, workPercent := 50,
    refreshToken := some (.refresh 2 0) }

/-- A stored approved guard, assigned to `loc1`. -/
def guard2 : GuardDoc :=
  { id := 3, userName := "carol", fullName := "Carol Lee",
    email := "carol@example.com", password := "pw3",
    avatar := "https://cloud/carol.png", residence := "Mumbai",
    description := "day shift", age := 35, workHistory := [],
    isApproved := true, workPercent := 80, refreshToken := none }

/-- A location assigned to `guard2`. -/
def loc1 : LocationDoc :=
  { id := 4, guard := 3, name := "Gate 1", latitude := 10, longitude := 20 }

/-- The base database state. -/
def st0 : St :=
  { users := [user1], guards := [guard1, guard2], complains := [],
    appreciations := [], locations := [loc1], nextId := 10, nextNonce := 5 }

/-- Erases only the `refreshToken` field of a user document; two user
lists with equal images under this map agree on every other field of
every document. -/
def eraseUserRefreshToken (u : UserDoc) : UserDoc :=
  { u with refreshToken := none }

/-- Erases only the `refreshToken` field of a guard document. -/
def eraseGuardRefreshToken (g : GuardDoc) : GuardDoc :=
  { g with refreshToken := none }

/-- Erases the secret fields (`password`, `refreshToken`) of a user
document: the information a read endpoint is allowed to depend on. -/
def scrubUser (u : UserDoc) : UserDoc :=
  { u with password := "", refreshToken := none }

/-- Erases the secret fields of a guard document. -/
def scrubGuard (g : GuardDoc) : GuardDoc :=
  { g with password := "", refreshToken := none }

/-- A state that agrees with `st0` except on secrets: different stored
passwords and refresh tokens. -/
def st0' : St :=
  { st0 with
      users := [{ user1 with password := "otherpw", refreshToken := none }],
      guards := [{ guard1 with password := "opw2", refreshToken := some (.refresh 2 77) },
                 { guard2 with password := "opw3" }] }

/-- The state after "alice" logs in against `st0`: only her refresh
token is rotated and the nonce counter advances. -/
def st0AfterLogin : St :=
  { st0 with users := [{ user1 with refreshToken := some (.refresh 1 6) }],
             nextNonce := 7 }

/-- The response of that login. -/
def loginResp0 : LoginUserResp :=
  { status := 200, accessCookie := .access 1 5, refreshCookie := .refresh 1 6,
    user := user1, accessToken := .access 1 5, refreshToken := .refresh 1 6 }

/-- A controller result is uniform when every thrown error is one of
the listed `ApiError` envelopes and every JSON response carries one of
the listed success statuses. -/
def UniformResult {α : Type} (statusOf : α → Nat) (okStatuses : List Nat)
    (allowed : List ApiError) (res : Except ApiError α × St) : Prop :=
  (∀ e, res.1 = .error e → e ∈ allowed) ∧
  (∀ a, res.1 = .ok a → statusOf a ∈ okStatuses)

/-! ## C9 — checkRefreshToken -/

/-- Claim C9. `checkRefreshToken` (user and guard variants) is total and
never throws: for every request it responds with status 200 if and only
if a (truthy) refresh token is present in the request cookies or body,
and with status 401 otherwise, and the body repeats that status; it
performs no token verification and leaves the state unchanged. -/
theorem c9_checkRefreshToken_total :
    ∀ (req : RefreshReq) (st : St),
      ((userCheckRefreshToken req st).2 = st ∧
       ∃ r, (userCheckRefreshToken req st).1 = .ok r ∧ r.bodyStatus = r.status ∧
         (r.status = 200 ↔
           (truthyToken (jsOr req.cookieRefreshToken req.bodyRefreshToken)).isSome = true) ∧
         (r.status = 401 ↔
           (truthyToken (jsOr req.cookieRefreshToken req.bodyRefreshToken)).isSome = false)) ∧
      ((guardCheckRefreshToken req st).2 = st ∧
       ∃ r, (guardCheckRefreshToken req st).1 = .ok r ∧ r.bodyStatus = r.status ∧
         (r.status = 200 ↔
           (truthyToken (jsOr req.cookieRefreshToken req.bodyRefreshToken)).isSome = true) ∧
         (r.status = 401 ↔
           (truthyToken (jsOr req.cookieRefreshToken req.bodyRefreshToken)).isSome = false)) := by
  intro req st
  by_cases h : (truthyToken (jsOr req.cookieRefreshToken req.bodyRefreshToken)).isSome
  · exact ⟨⟨rfl, ⟨200, 200⟩, by simp [userCheckRefreshToken, h]⟩,
      ⟨rfl, ⟨200, 200⟩, by simp [guardCheckRefreshToken, h]⟩⟩
  · exact ⟨⟨rfl, ⟨401, 401⟩, by simp [userCheckRefreshToken, h]⟩,
      ⟨rfl, ⟨401, 401⟩, by simp [guardCheckRefreshToken, h]⟩⟩

/-! ## C4 — updateWorkPercent -/

/-- Claim C4. For every authenticated call to `updateWorkPercent` on an
existing guard, the request is rejected with status 400 exactly when
the supplied workPercent value lies outside the range 0 to 100 or is
absent, and every value within 0–100 inclusive is stored on the guard
document and returned without password and refreshToken fields (the
`publicGuard` projection). -/
theorem c4_updateWorkPercent_range :
    ∀ (req : WorkPercentReq) (st : St) (gid : Nat) (g : GuardDoc),
      req.userId = some gid →
      findGuardById st.guards gid = some g →
      (((updateWorkPercent req st).1 =
          .error ⟨400, "Invalid work percent value (must be between 0-100)"⟩) ↔
        (req.workPercent = none ∨
         ∃ w, req.workPercent = some w ∧ (w < 0 ∨ 100 < w))) ∧
      (∀ w, req.workPercent = some w → 0 ≤ w → w ≤ 100 →
        updateWorkPercent req st =
          (.ok { status := 200, data := publicGuard { g with workPercent := w } },
           { st with guards := st.guards.map (fun g' =>
               if g'.id == gid then { g' with workPercent := w } else g') })) := by
  intro req st gid g hid hfind
  constructor
  · constructor
    · intro herr
      match hw : req.workPercent with
      | none => exact Or.inl rfl
      | some w =>
        refine Or.inr ⟨w, rfl, ?_⟩
        by_contra hrange
        push_neg at hrange
        have h0 : ¬(w < 0 || w > 100) = true := by
          simp only [Bool.or_eq_true, decide_eq_true_eq]
          omega
        rw [updateWorkPercent, hid, hw] at herr
        simp only [h0, if_neg] at herr
        rw [hfind] at herr
        simp at herr
    · intro hcase
      rcases hcase with hnone | ⟨w, hw, hrange⟩
      · rw [updateWorkPercent, hid, hnone]
      · have h0 : (w < 0 || w > 100) = true := by
          simp only [Bool.or_eq_true, decide_eq_true_eq]
          omega
        rw [updateWorkPercent, hid, hw]
        simp only [h0, if_pos]
  · intro w hw h0 h100
    have hr' : (w < 0 || w > 100) = false := by
      simp only [Bool.or_eq_false_iff, decide_eq_false_iff_not]
      omega
    rw [updateWorkPercent, hid, hw]
    simp [hr', hfind]

/-- Witness for C4: guard 2 (stored work percent 50) updated to 75. -/
theorem c4_witness :
    updateWorkPercent ⟨some 2, some 75⟩ st0 =
      (.ok { status := 200, data := publicGuard { guard1 with workPercent := 75 } },
       { st0 with guards := [{ guard1 with workPercent := 75 }, guard2] }) := by
  have h := (c4_updateWorkPercent_range ⟨some 2, some 75⟩ st0 2 guard1 rfl (by decide)).2
    75 rfl (by decide) (by decide)
  rw [h]
  simp [st0, guard1, guard2]

/-! ## C5 — authoriseGuard -/

/-- Claim C5, counterexample. The claim that `authoriseGuard` toggles the
stored `isApproved` flag is false: for the stored guard 2, which is
unapproved (`isApproved = false`), a call does not flip the flag to
`true`. The code unconditionally assigns `guard.isApproved = false`. -/
theorem c5_counterexample :
    ¬ (∀ (req : AuthoriseReq) (st : St) (gid : Nat) (g : GuardDoc),
        strFalsy req.complain = false →
        req.guardId = some gid →
        findGuardById st.guards gid = some g →
        findGuardById (authoriseGuard req st).2.guards gid =
          some { g with isApproved := !g.isApproved }) := by
  intro h
  have hg := h ⟨some "late to shift", some 2⟩ st0 2 guard1 rfl rfl (by decide)
  rw [show findGuardById (authoriseGuard ⟨some "late to shift", some 2⟩ st0).2.guards 2 =
        some { guard1 with isApproved := false } from by decide] at hg
  have : ({ guard1 with isApproved := false } : GuardDoc) =
      { guard1 with isApproved := !guard1.isApproved } := by
    exact Option.some.inj hg
  simp [guard1] at this

/-- Claim C5, amended. For every existing guard, `authoriseGuard` (given
the required feedback) unconditionally sets the guard's stored
`isApproved` flag to `false` — it does not toggle it — persists the
change, records the feedback as a `Complain` document, and responds 200
with the unapproved guard. -/
theorem c5_authoriseGuard_unapproves :
    ∀ (req : AuthoriseReq) (st : St) (gid : Nat) (g : GuardDoc),
      strFalsy req.complain = false →
      req.guardId = some gid →
      findGuardById st.guards gid = some g →
      authoriseGuard req st =
        (.ok { status := 200, data := publicGuard { g with isApproved := false } },
         { st with
             guards := st.guards.map (fun g' =>
               if g'.id == gid then { g with isApproved := false } else g'),
             complains := st.complains ++
               [{ id := st.nextId, complain := req.complain.getD "", guard := gid }],
             nextId := st.nextId + 1 }) := by
  intro req st gid g hc hid hfind
  simp [authoriseGuard, hc, hid, hfind]

/-- Witness for C5 (amended): unapproving the stored guard 2 records
the complaint and leaves `isApproved = false`. -/
theorem c5_witness :
    authoriseGuard ⟨some "absent on Friday", some 2⟩ st0 =
      (.ok { status := 200, data := publicGuard { guard1 with isApproved := false } },
       { st0 with
           guards := [{ guard1 with isApproved := false }, guard2],
           complains := [{ id := 10, complain := "absent on Friday", guard := 2 }],
           nextId := 11 }) := by
  have h := c5_authoriseGuard_unapproves ⟨some "absent on Friday", some 2⟩ st0 2 guard1
    rfl rfl (by decide)
  rw [h]
  simp [st0, guard1, guard2]

/-! ## C2 — duplicate registration -/

/-- Claim C2, counterexample. As universally stated over every
registration request, the claim fails: a request whose `userName`
equals the stored user's `userName` but which omits another required
field (here `fullName`) is rejected by the preceding required-fields
check with status 400, not 409. -/
theorem c2_counterexample :
    ¬ (∀ (env : Env) (req : RegisterUserReq) (st : St),
        (∃ u ∈ st.users,
          some u.userName = req.userName ∨ some u.email = req.email) →
        (registerUser env req st).1 = .error ⟨409, "User already exists"⟩) := by
  intro h
  have hc := h env0
    { userName := some "alice", fullName := none, email := some "fresh@example.com",
      password := some "pw", role := none, avatarPath := some "a.png" } st0
    ⟨user1, by simp [st0], Or.inl (by simp [user1])⟩
  have h400 : (registerUser env0
      { userName := some "alice", fullName := none, email := some "fresh@example.com",
        password := some "pw", role := none, avatarPath := some "a.png" } st0).1 =
      .error ⟨400, "All fields are required"⟩ := by decide
  rw [h400] at hc
  simp at hc

/-- Claim C2, amended. For every registration request with all required
fields present (non-falsy) whose `userName` or `email` equals the
`userName` or `email` of an account already stored, the operation fails
with status 409 ("already exists") and the state — in particular the
set of stored documents — is unchanged. (The stored `userName` is
lowercased at creation while the duplicate lookup uses the request's
`userName` as given; the equality hypothesis below is against the
stored values.) -/
theorem c2_duplicate_registration_rejected :
    (∀ (env : Env) (req : RegisterUserReq) (st : St),
      strFalsy req.userName = false → strFalsy req.fullName = false →
      strFalsy req.email = false → strFalsy req.password = false →
      (∃ u ∈ st.users,
        some u.userName = req.userName ∨ some u.email = req.email) →
      registerUser env req st = (.error ⟨409, "User already exists"⟩, st)) ∧
    (∀ (env : Env) (jenv : JsonEnv) (req : RegisterGuardReq) (st : St),
      strFalsy req.userName = false → strFalsy req.fullName = false →
      strFalsy req.email = false → strFalsy req.password = false →
      strFalsy req.residence = false → strFalsy req.description = false →
      intFalsy req.age = false →
      (∃ g ∈ st.guards,
        some g.userName = req.userName ∨ some g.email = req.email) →
      registerGuard env jenv req st = (.error ⟨409, "Guard already exists"⟩, st)) := by
  constructor
  · intro env req st h1 h2 h3 h4 hdup
    have hsome : (findUserByNameOrEmail st.users req.userName req.email).isSome := by
      rw [findUserByNameOrEmail, List.find?_isSome]
      obtain ⟨u, hu, hmatch⟩ := hdup
      refine ⟨u, hu, ?_⟩
      rcases hmatch with hm | hm
      · simp [matchesNameOrEmail, ← hm]
      · simp [matchesNameOrEmail, ← hm]
    obtain ⟨b, hb⟩ := Option.isSome_iff_exists.mp hsome
    rw [registerUser]
    simp [h1, h2, h3, h4, hb]
  · intro env jenv req st h1 h2 h3 h4 h5 h6 h7 hdup
    have hsome : (findGuardByNameOrEmail st.guards req.userName req.email).isSome := by
      rw [findGuardByNameOrEmail, List.find?_isSome]
      obtain ⟨g, hg, hmatch⟩ := hdup
      refine ⟨g, hg, ?_⟩
      rcases hmatch with hm | hm
      · simp [matchesNameOrEmail, ← hm]
      · simp [matchesNameOrEmail, ← hm]
    obtain ⟨b, hb⟩ := Option.isSome_iff_exists.mp hsome
    rw [registerGuard]
    simp [h1, h2, h3, h4, h5, h6, h7, hb]

/-- Witness for C2 (amended): a fully-populated registration that
reuses the stored userName "alice" is rejected with 409 and leaves the
database unchanged; likewise a guard registration reusing the stored
email of guard "bob". -/
theorem c2_witness :
    registerUser env0
      { userName := some "alice", fullName := some "Alice Clone",
        email := some "fresh@example.com", password := some "pw9",
        role := none, avatarPath := some "a.png" } st0 =
      (.error ⟨409, "User already exists"⟩, st0) ∧
    registerGuard env0 jenv0
      { userName := some "newbob", fullName := some "Bob Clone",
        email := some "bob@example.com", password := some "pw9",
        residence := some "Pune", description := some "guard",
        age := some 28, workHistory := none, avatarPath := some "b.png" } st0 =
      (.error ⟨409, "Guard already exists"⟩, st0) := by
  constructor
  · exact c2_duplicate_registration_rejected.1 env0 _ st0 rfl rfl rfl rfl
      ⟨user1, by simp [st0], Or.inl (by simp [user1])⟩
  · exact c2_duplicate_registration_rejected.2 env0 jenv0 _ st0 rfl rfl rfl rfl rfl rfl rfl
      ⟨guard1, by simp [st0], Or.inr (by simp [guard1])⟩

/-! ## C3 — wrong password on login -/

/-- Claim C3. For every login request (`loginUser` or `loginGuard`) that
supplies a username or email and identifies an existing account but
supplies a password that does not match the stored one, the operation
fails with status 401 "Invalid credentials" and the state is unchanged:
no tokens are issued, no cookies are set (the cookie-bearing response
exists only on the `.ok` branch), and the stored refresh token is
untouched. -/
theorem c3_wrong_password_rejected :
    (∀ (req : LoginReq) (st : St) (u : UserDoc),
      (strFalsy req.email && strFalsy req.userName) = false →
      findUserByNameOrEmail st.users req.userName req.email = some u →
      isPasswordCorrect req.password u.password = false →
      loginUser req st = (.error ⟨401, "Invalid credentials"⟩, st)) ∧
    (∀ (req : LoginReq) (st : St) (g : GuardDoc),
      (strFalsy req.email && strFalsy req.userName) = false →
      findGuardByNameOrEmail st.guards req.userName req.email = some g →
      isPasswordCorrect req.password g.password = false →
      loginGuard req st = (.error ⟨401, "Invalid credentials"⟩, st)) := by
  constructor
  · intro req st u hfalsy hfind hpw
    rw [loginUser]
    simp [hfalsy, hfind, hpw]
  · intro req st g hfalsy hfind hpw
    rw [loginGuard]
    simp [hfalsy, hfind, hpw]

/-- Witness for C3: logging in as the stored user "alice" (by email)
and as the stored guard "bob" (by username) with wrong passwords. -/
theorem c3_witness :
    loginUser { email := some "alice@example.com", userName := none,
                password := some "wrong" } st0 =
      (.error ⟨401, "Invalid credentials"⟩, st0) ∧
    loginGuard { email := none, userName := some "bob",
                 password := some "alsowrong" } st0 =
      (.error ⟨401, "Invalid credentials"⟩, st0) := by
  constructor
  · exact c3_wrong_password_rejected.1 _ st0 user1 rfl (by decide) (by decide)
  · exact c3_wrong_password_rejected.2 _ st0 guard1 rfl (by decide) (by decide)

/-! ## C7 — login modifies only the refresh token -/

/-- Helper: the state after a successful `userGenerateTokens` is the
input state with the user's refresh token set and the nonce advanced. -/
theorem userGenerateTokens_ok_state (uid : Nat) (st : St) (res : Token × Token) (st' : St)
    (h : userGenerateTokens uid st = (.ok res, st')) :
    st' = { st with users := setUserRefreshToken st.users uid res.2,
                    nextNonce := st.nextNonce + 2 } := by
  rw [userGenerateTokens] at h
  split at h
  · simp at h
  · simp only [Prod.mk.injEq, Except.ok.injEq] at h
    obtain ⟨hres, hst⟩ := h
    rw [← hst, ← hres]

/-- Helper: the state after a successful `guardGenerateTokens`. -/
theorem guardGenerateTokens_ok_state (gid : Nat) (st : St) (res : Token × Token) (st' : St)
    (h : guardGenerateTokens gid st = (.ok res, st')) :
    st' = { st with guards := setGuardRefreshToken st.guards gid res.2,
                    nextNonce := st.nextNonce + 2 } := by
  rw [guardGenerateTokens] at h
  split at h
  · simp at h
  · simp only [Prod.mk.injEq, Except.ok.injEq] at h
    obtain ⟨hres, hst⟩ := h
    rw [← hst, ← hres]

/-- Helper: setting a refresh token changes nothing once refresh tokens
are erased. -/
theorem map_erase_setUserRefreshToken (l : List UserDoc) (uid : Nat) (t : Token) :
    (setUserRefreshToken l uid t).map eraseUserRefreshToken =
      l.map eraseUserRefreshToken := by
  rw [setUserRefreshToken, List.map_map]
  apply List.map_congr_left
  intro u _
  by_cases hu : (u.id == uid) = true <;>
    simp [Function.comp, eraseUserRefreshToken, hu]

/-- Helper: the guard version of `map_erase_setUserRefreshToken`. -/
theorem map_erase_setGuardRefreshToken (l : List GuardDoc) (gid : Nat) (t : Token) :
    (setGuardRefreshToken l gid t).map eraseGuardRefreshToken =
      l.map eraseGuardRefreshToken := by
  rw [setGuardRefreshToken, List.map_map]
  apply List.map_congr_left
  intro g _
  by_cases hg : (g.id == gid) = true <;>
    simp [Function.comp, eraseGuardRefreshToken, hg]

/-- Claim C7. For every successful login (`loginUser` or `loginGuard`),
the only persistent field of any account document that is modified is
`refreshToken`: after erasing refresh tokens the user (resp. guard)
collection is unchanged, and every other collection and the id counter
are untouched. -/
theorem c7_login_only_touches_refreshToken :
    (∀ (req : LoginReq) (st : St) (resp : LoginUserResp) (st' : St),
      loginUser req st = (.ok resp, st') →
      st'.users.map eraseUserRefreshToken = st.users.map eraseUserRefreshToken ∧
      st'.guards = st.guards ∧ st'.complains = st.complains ∧
      st'.appreciations = st.appreciations ∧ st'.locations = st.locations ∧
      st'.nextId = st.nextId) ∧
    (∀ (req : LoginReq) (st : St) (resp : LoginGuardResp) (st' : St),
      loginGuard req st = (.ok resp, st') →
      st'.guards.map eraseGuardRefreshToken = st.guards.map eraseGuardRefreshToken ∧
      st'.users = st.users ∧ st'.complains = st.complains ∧
      st'.appreciations = st.appreciations ∧ st'.locations = st.locations ∧
      st'.nextId = st.nextId) := by
  constructor
  · intro req st resp st' h
    rw [loginUser] at h
    split at h
    · simp at h
    · split at h
      · simp at h
      · split at h
        · simp at h
        · split at h
          · simp at h
          · rename_i heq
            simp only [Prod.mk.injEq, Except.ok.injEq] at h
            obtain ⟨-, hst⟩ := h
            subst hst
            have hstate := userGenerateTokens_ok_state _ _ _ _ heq
            subst hstate
            exact ⟨map_erase_setUserRefreshToken _ _ _, rfl, rfl, rfl, rfl, rfl⟩
  · intro req st resp st' h
    rw [loginGuard] at h
    split at h
    · simp at h
    · split at h
      · simp at h
      · split at h
        · simp at h
        · split at h
          · simp at h
          · rename_i heq
            simp only [Prod.mk.injEq, Except.ok.injEq] at h
            obtain ⟨-, hst⟩ := h
            subst hst
            have hstate := guardGenerateTokens_ok_state _ _ _ _ heq
            subst hstate
            exact ⟨map_erase_setGuardRefreshToken _ _ _, rfl, rfl, rfl, rfl, rfl⟩

/-- Witness for C7: the successful login of the stored user "alice"
against `st0` rotates only her refresh token. -/
theorem c7_witness :
    st0AfterLogin.users.map eraseUserRefreshToken =
      st0.users.map eraseUserRefreshToken ∧
    st0AfterLogin.guards = st0.guards ∧
    st0AfterLogin.complains = st0.complains ∧
    st0AfterLogin.appreciations = st0.appreciations ∧
    st0AfterLogin.locations = st0.locations ∧
    st0AfterLogin.nextId = st0.nextId :=
  c7_login_only_touches_refreshToken.1
    { email := some "alice@example.com", userName := none, password := some "pw1" }
    st0 loginResp0 st0AfterLogin (by decide)

/-! ## C1 — token refresh rotates and persists -/

/-- Helper: looking up the account whose refresh token was just set
yields the stored document with the new token in place of the old. -/
theorem findUserById_setUserRefreshToken (l : List UserDoc) (uid : Nat) (t : Token) :
    findUserById (setUserRefreshToken l uid t) uid =
      (findUserById l uid).map (fun u => { u with refreshToken := some t }) := by
  induction l with
  | nil => rfl
  | cons u l ih =>
    simp only [findUserById, setUserRefreshToken, List.map_cons] at ih ⊢
    by_cases hu : (u.id == uid) = true
    · rw [if_pos hu]
      rw [List.find?_cons_of_pos, List.find?_cons_of_pos]
      · rfl
      · exact hu
      · exact hu
    · rw [if_neg hu, List.find?_cons_of_neg _ (by simpa using hu),
        List.find?_cons_of_neg _ (by simpa using hu), ih]

/-- Helper: the guard version of `findUserById_setUserRefreshToken`. -/
theorem findGuardById_setGuardRefreshToken (l : List GuardDoc) (gid : Nat) (t : Token) :
    findGuardById (setGuardRefreshToken l gid t) gid =
      (findGuardById l gid).map (fun g => { g with refreshToken := some t }) := by
  induction l with
  | nil => rfl
  | cons g l ih =>
    simp only [findGuardById, setGuardRefreshToken, List.map_cons] at ih ⊢
    by_cases hg : (g.id == gid) = true
    · rw [if_pos hg]
      rw [List.find?_cons_of_pos, List.find?_cons_of_pos]
      · rfl
      · exact hg
      · exact hg
    · rw [if_neg hg, List.find?_cons_of_neg _ (by simpa using hg),
        List.find?_cons_of_neg _ (by simpa using hg), ih]

/-- Claim C1. For every request to the token-refresh operation
(`getAccessToken`, user and guard variants) presenting a refresh token
that verifies (decoding to the account's id) and equals the refresh
token stored on the account document, the operation responds with
status 200, sets a freshly generated access token and a freshly
generated refresh token as cookies (the new refresh token differs from
the presented one), and persists the new refresh token on the account
document in place of the old one. -/
theorem c1_refresh_rotates_tokens :
    (∀ (req : RefreshReq) (st : St) (uid n : Nat) (u : UserDoc),
      truthyToken (jsOr req.cookieRefreshToken req.bodyRefreshToken) =
        some (.refresh uid n) →
      findUserById st.users uid = some u →
      u.refreshToken = some (.refresh uid n) →
      n < st.nextNonce →
      userGetAccessToken req st =
        (.ok { status := 200,
               accessCookie := .access uid st.nextNonce,
               refreshCookie := .refresh uid (st.nextNonce + 1),
               accessToken := .access uid st.nextNonce,
               refreshToken := .refresh uid (st.nextNonce + 1) },
         { st with
             users := setUserRefreshToken st.users uid (.refresh uid (st.nextNonce + 1)),
             nextNonce := st.nextNonce + 2 }) ∧
      findUserById (setUserRefreshToken st.users uid (.refresh uid (st.nextNonce + 1))) uid =
        some { u with refreshToken := some (.refresh uid (st.nextNonce + 1)) } ∧
      (Token.refresh uid (st.nextNonce + 1)) ≠ (.refresh uid n)) ∧
    (∀ (req : RefreshReq) (st : St) (gid n : Nat) (g : GuardDoc),
      truthyToken (jsOr req.cookieRefreshToken req.bodyRefreshToken) =
        some (.refresh gid n) →
      findGuardById st.guards gid = some g →
      g.refreshToken = some (.refresh gid n) →
      n < st.nextNonce →
      guardGetAccessToken req st =
        (.ok { status := 200,
               accessCookie := .access gid st.nextNonce,
               refreshCookie := .refresh gid (st.nextNonce + 1),
               accessToken := .access gid st.nextNonce,
               refreshToken := .refresh gid (st.nextNonce + 1) },
         { st with
             guards := setGuardRefreshToken st.guards gid (.refresh gid (st.nextNonce + 1)),
             nextNonce := st.nextNonce + 2 }) ∧
      findGuardById (setGuardRefreshToken st.guards gid (.refresh gid (st.nextNonce + 1))) gid =
        some { g with refreshToken := some (.refresh gid (st.nextNonce + 1)) } ∧
      (Token.refresh gid (st.nextNonce + 1)) ≠ (.refresh gid n)) := by
  constructor
  · intro req st uid n u h1 h2 h3 h4
    have hid : u.id = uid := by
      have hp := List.find?_some h2
      simpa using hp
    refine ⟨?_, ?_, ?_⟩
    · unfold userGetAccessToken userRefreshAttempt userGenerateTokens
      rw [h1]
      simp only [verifyRefreshToken, h2, h3, hid, bne_self_eq_false]
      simp [h2]
    · rw [findUserById_setUserRefreshToken, h2]
      rfl
    · intro hb
      have : st.nextNonce + 1 = n := by
        injection hb
      omega
  · intro req st gid n g h1 h2 h3 h4
    have hid : g.id = gid := by
      have hp := List.find?_some h2
      simpa using hp
    refine ⟨?_, ?_, ?_⟩
    · unfold guardGetAccessToken guardRefreshAttempt guardGenerateTokens
      rw [h1]
      simp only [verifyRefreshToken, h2, h3, hid, bne_self_eq_false]
      simp [h2]
    · rw [findGuardById_setGuardRefreshToken, h2]
      rfl
    · intro hb
      have : st.nextNonce + 1 = n := by
        injection hb
      omega

/-- Witness for C1: user "alice" presents her stored refresh token
(account id 1, nonce 0) against `st0`; the call responds 200, sets the
fresh cookie pair, persists the rotated token, and the new refresh
token differs from the presented one. -/
theorem c1_witness :
    userGetAccessToken
        { cookieRefreshToken := some (.refresh 1 0), bodyRefreshToken := none } st0 =
      (.ok { status := 200, accessCookie := .access 1 5, refreshCookie := .refresh 1 6,
             accessToken := .access 1 5, refreshToken := .refresh 1 6 },
       { st0 with users := setUserRefreshToken st0.users 1 (.refresh 1 6),
                  nextNonce := 7 }) ∧
    Token.refresh 1 6 ≠ Token.refresh 1 0 := by
  have h := c1_refresh_rotates_tokens.1
    { cookieRefreshToken := some (.refresh 1 0), bodyRefreshToken := none } st0 1 0 user1
    (by decide) (by decide) rfl (by decide)
  exact ⟨h.1, h.2.2⟩

/-! ## C8 — refresh failures collapse to 401 -/

/-- Claim C8. For every request to `getAccessToken` that presents some
refresh token, every failure after that point is reported as 401
"Invalid refresh token": any thrown error of the `try` block is caught
and rethrown as 401. In particular, a token that verifies correctly but
does not equal the `refreshToken` stored on the account raises the
internal 403 "Invalid or expired refresh token" inside the attempt,
which is never observable: the response error is 401. -/
theorem c8_refresh_failures_are_401 :
    (∀ (req : RefreshReq) (st : St) (tok : Token),
      truthyToken (jsOr req.cookieRefreshToken req.bodyRefreshToken) = some tok →
      (∀ (e : ApiError) (st' : St),
        userGetAccessToken req st = (.error e, st') →
        e = ⟨401, "Invalid refresh token"⟩) ∧
      (∀ (uid n : Nat) (u : UserDoc),
        tok = .refresh uid n →
        findUserById st.users uid = some u →
        u.refreshToken ≠ some tok →
        (userRefreshAttempt tok st).1 =
          .error (.api ⟨403, "Invalid or expired refresh token"⟩) ∧
        (userGetAccessToken req st).1 = .error ⟨401, "Invalid refresh token"⟩)) ∧
    (∀ (req : RefreshReq) (st : St) (tok : Token),
      truthyToken (jsOr req.cookieRefreshToken req.bodyRefreshToken) = some tok →
      (∀ (e : ApiError) (st' : St),
        guardGetAccessToken req st = (.error e, st') →
        e = ⟨401, "Invalid refresh token"⟩) ∧
      (∀ (gid n : Nat) (g : GuardDoc),
        tok = .refresh gid n →
        findGuardById st.guards gid = some g →
        g.refreshToken ≠ some tok →
        (guardRefreshAttempt tok st).1 =
          .error (.api ⟨403, "Invalid or expired refresh token"⟩) ∧
        (guardGetAccessToken req st).1 = .error ⟨401, "Invalid refresh token"⟩)) := by
  constructor
  · intro req st tok h1
    constructor
    · intro e st' h
      unfold userGetAccessToken at h
      rw [h1] at h
      simp only [] at h
      cases hra : userRefreshAttempt tok st with
      | mk exc st₁ =>
        rw [hra] at h
        cases exc with
        | ok r => simp at h
        | error f =>
          simp only [Prod.mk.injEq, Except.error.injEq] at h
          exact h.1.symm
    · intro uid n u htok h2 hne
      subst htok
      have hatt : (userRefreshAttempt (Token.refresh uid n) st).1 =
          .error (.api ⟨403, "Invalid or expired refresh token"⟩) := by
        unfold userRefreshAttempt
        simp only [verifyRefreshToken, h2]
        have hbne : (some (Token.refresh uid n) != u.refreshToken) = true :=
          bne_iff_ne.mpr (fun hh => hne hh.symm)
        simp [hbne]
      refine ⟨hatt, ?_⟩
      unfold userGetAccessToken
      rw [h1]
      simp only []
      cases hra : userRefreshAttempt (Token.refresh uid n) st with
      | mk exc st₁ =>
        cases exc with
        | ok r =>
          exfalso
          rw [hra] at hatt
          simp at hatt
        | error f => simp [hra]
  · intro req st tok h1
    constructor
    · intro e st' h
      unfold guardGetAccessToken at h
      rw [h1] at h
      simp only [] at h
      cases hra : guardRefreshAttempt tok st with
      | mk exc st₁ =>
        rw [hra] at h
        cases exc with
        | ok r => simp at h
        | error f =>
          simp only [Prod.mk.injEq, Except.error.injEq] at h
          exact h.1.symm
    · intro gid n g htok h2 hne
      subst htok
      have hatt : (guardRefreshAttempt (Token.refresh gid n) st).1 =
          .error (.api ⟨403, "Invalid or expired refresh token"⟩) := by
        unfold guardRefreshAttempt
        simp only [verifyRefreshToken, h2]
        have hbne : (some (Token.refresh gid n) != g.refreshToken) = true :=
          bne_iff_ne.mpr (fun hh => hne hh.symm)
        simp [hbne]
      refine ⟨hatt, ?_⟩
      unfold guardGetAccessToken
      rw [h1]
      simp only []
      cases hra : guardRefreshAttempt (Token.refresh gid n) st with
      | mk exc st₁ =>
        cases exc with
        | ok r =>
          exfalso
          rw [hra] at hatt
          simp at hatt
        | error f => simp [hra]

/-- Witness for C8: guard "bob" (account id 2, stored token nonce 0)
presents a verifying refresh token with nonce 9 that is not the stored
one: the attempt raises the internal 403 and the response is the 401
"Invalid refresh token". -/
theorem c8_witness :
    (guardRefreshAttempt (.refresh 2 9) st0).1 =
      .error (.api ⟨403, "Invalid or expired refresh token"⟩) ∧
    (guardGetAccessToken
        { cookieRefreshToken := some (.refresh 2 9), bodyRefreshToken := none } st0).1 =
      .error ⟨401, "Invalid refresh token"⟩ :=
  (c8_refresh_failures_are_401.2
      { cookieRefreshToken := some (.refresh 2 9), bodyRefreshToken := none } st0
      (.refresh 2 9) (by decide)).2 2 9 guard1 rfl (by decide) (by decide)

/-! ## C10 — read endpoints are independent of stored secrets -/

/-- Helper: a `find?` whose predicate and result projection both factor
through a map is computed on the mapped list. -/
theorem find?_factor {α β γ : Type} (f : α → β) (p : α → Bool) (q : β → Bool)
    (g : α → γ) (r : β → γ)
    (hp : ∀ a, p a = q (f a)) (hg : ∀ a, g a = r (f a)) :
    ∀ l : List α, (l.find? p).map g = ((l.map f).find? q).map r := by
  intro l
  induction l with
  | nil => rfl
  | cons a l ih =>
    by_cases ha : p a = true
    · rw [List.find?_cons_of_pos _ ha, List.map_cons,
        List.find?_cons_of_pos _ (by rw [← hp]; exact ha)]
      simp [hg]
    · rw [List.find?_cons_of_neg _ (by simpa using ha), List.map_cons,
        List.find?_cons_of_neg _ (by rw [← hp]; simpa using ha)]
      exact ih

/-- Helper: a `filter`-`map` pipeline whose predicate and projection
both factor through a map is computed on the mapped list. -/
theorem filter_map_factor {α β γ : Type} (f : α → β) (p : α → Bool) (q : β → Bool)
    (g : α → γ) (r : β → γ)
    (hp : ∀ a, p a = q (f a)) (hg : ∀ a, g a = r (f a)) :
    ∀ l : List α, (l.filter p).map g = ((l.map f).filter q).map r := by
  intro l
  induction l with
  | nil => rfl
  | cons a l ih =>
    by_cases ha : p a = true
    · rw [List.filter_cons_of_pos ha, List.map_cons, List.map_cons,
        List.filter_cons_of_pos (by rw [← hp]; exact ha), List.map_cons, ih, hg]
    · rw [List.filter_cons_of_neg (by simpa using ha), List.map_cons,
        List.filter_cons_of_neg (by rw [← hp]; simpa using ha)]
      exact ih

/-- Claim C10. Every successful response of the read and list
operations `getUser`, `getGuard`, `listAutherisedGuards`,
`listUnassignedGuards` and `listAuthorisedGuards` excludes the
`password` and `refreshToken` fields from every returned document (the
`PublicUser`/`PublicGuard` projections carry no such fields), so these
outputs are independent of the stored password and refresh-token
values: two states that agree after scrubbing those secret fields
produce identical responses on all five operations. -/
theorem c10_reads_secret_independent :
    ∀ (st₁ st₂ : St),
      st₁.users.map scrubUser = st₂.users.map scrubUser →
      st₁.guards.map scrubGuard = st₂.guards.map scrubGuard →
      st₁.locations = st₂.locations →
      (∀ p, (getUser p st₁).1 = (getUser p st₂).1) ∧
      (∀ p, (getGuard p st₁).1 = (getGuard p st₂).1) ∧
      (listAutherisedGuards st₁).1 = (listAutherisedGuards st₂).1 ∧
      (listUnassignedGuards st₁).1 = (listUnassignedGuards st₂).1 ∧
      (listAuthorisedGuards st₁).1 = (listAuthorisedGuards st₂).1 := by
  intro st₁ st₂ hu hg hloc
  have huser : ∀ nm : String,
      (st₁.users.find? (fun u => u.userName == nm)).map publicUser =
      (st₂.users.find? (fun u => u.userName == nm)).map publicUser := by
    intro nm
    rw [find?_factor scrubUser (fun u => u.userName == nm) (fun u => u.userName == nm)
          publicUser publicUser (fun a => rfl) (fun a => rfl),
        hu,
        ← find?_factor scrubUser (fun u => u.userName == nm) (fun u => u.userName == nm)
          publicUser publicUser (fun a => rfl) (fun a => rfl)]
  have hguardF : ∀ nm : String,
      (st₁.guards.find? (fun g => g.userName == nm)).map publicGuard =
      (st₂.guards.find? (fun g => g.userName == nm)).map publicGuard := by
    intro nm
    rw [find?_factor scrubGuard (fun g => g.userName == nm) (fun g => g.userName == nm)
          publicGuard publicGuard (fun a => rfl) (fun a => rfl),
        hg,
        ← find?_factor scrubGuard (fun g => g.userName == nm) (fun g => g.userName == nm)
          publicGuard publicGuard (fun a => rfl) (fun a => rfl)]
  have hfilter : ∀ (q : GuardDoc → Bool),
      (∀ a : GuardDoc, q a = q (scrubGuard a)) →
      (st₁.guards.filter q).map publicGuard = (st₂.guards.filter q).map publicGuard := by
    intro q hq
    rw [filter_map_factor scrubGuard q q publicGuard publicGuard hq (fun a => rfl),
        hg,
        ← filter_map_factor scrubGuard q q publicGuard publicGuard hq (fun a => rfl)]
  refine ⟨?_, ?_, ?_, ?_, ?_⟩
  · intro p
    unfold getUser
    split
    · rfl
    · rename_i uN heq
      have hfind := huser uN.trim
      cases hf1 : List.find? (fun u => u.userName == uN.trim) st₁.users with
      | none =>
        cases hf2 : List.find? (fun u => u.userName == uN.trim) st₂.users with
        | none => rfl
        | some b => rw [hf1, hf2] at hfind; simp at hfind
      | some a =>
        cases hf2 : List.find? (fun u => u.userName == uN.trim) st₂.users with
        | none => rw [hf1, hf2] at hfind; simp at hfind
        | some b =>
          rw [hf1, hf2] at hfind
          have hab : publicUser a = publicUser b := by simpa using hfind
          show (Except.ok { status := 200, data := publicUser a } : Except ApiError GetUserResp) =
            .ok { status := 200, data := publicUser b }
          rw [hab]
  · intro p
    unfold getGuard
    split
    · rfl
    · rename_i uN heq
      have hfind := hguardF uN.trim
      cases hf1 : List.find? (fun g => g.userName == uN.trim) st₁.guards with
      | none =>
        cases hf2 : List.find? (fun g => g.userName == uN.trim) st₂.guards with
        | none => rfl
        | some b => rw [hf1, hf2] at hfind; simp at hfind
      | some a =>
        cases hf2 : List.find? (fun g => g.userName == uN.trim) st₂.guards with
        | none => rw [hf1, hf2] at hfind; simp at hfind
        | some b =>
          rw [hf1, hf2] at hfind
          have hab : publicGuard a = publicGuard b := by simpa using hfind
          show (Except.ok { status := 200, data := publicGuard a } : Except ApiError GetGuardResp) =
            .ok { status := 200, data := publicGuard b }
          rw [hab]
  · have hdata := hfilter (fun g => g.isApproved) (fun a => rfl)
    unfold listAutherisedGuards
    rw [hdata]
    by_cases hE :
        ((st₂.guards.filter (fun g => g.isApproved)).map publicGuard).isEmpty = true <;>
      simp [hE]
  · have hdata := hfilter
      (fun g => (st₁.locations.filter (fun loc => loc.guard == g.id)).isEmpty)
      (fun a => rfl)
    unfold listUnassignedGuards
    rw [← hloc, hdata]
    by_cases hE :
        ((st₂.guards.filter
            (fun g => (st₁.locations.filter (fun loc => loc.guard == g.id)).isEmpty)).map
          publicGuard).isEmpty = true <;>
      simp [hE]
  · have hinner : ∀ loc : LocationDoc,
        (st₁.guards.filter (fun g => g.isApproved && (g.id == loc.guard))).map
          (fun g => AssignmentRow.mk loc (publicGuard g)) =
        (st₂.guards.filter (fun g => g.isApproved && (g.id == loc.guard))).map
          (fun g => AssignmentRow.mk loc (publicGuard g)) := by
      intro loc
      rw [filter_map_factor scrubGuard (fun g => g.isApproved && (g.id == loc.guard))
            (fun g => g.isApproved && (g.id == loc.guard))
            (fun g => AssignmentRow.mk loc (publicGuard g))
            (fun g => AssignmentRow.mk loc (publicGuard g)) (fun a => rfl) (fun a => rfl),
          hg,
          ← filter_map_factor scrubGuard (fun g => g.isApproved && (g.id == loc.guard))
            (fun g => g.isApproved && (g.id == loc.guard))
            (fun g => AssignmentRow.mk loc (publicGuard g))
            (fun g => AssignmentRow.mk loc (publicGuard g)) (fun a => rfl) (fun a => rfl)]
    have hrows : authorisedAssignments st₁ = authorisedAssignments st₂ := by
      unfold authorisedAssignments
      rw [← hloc]
      apply List.flatMap_congr
      intro loc _
      rw [List.filter_filter, List.filter_filter]
      exact hinner loc
    unfold listAuthorisedGuards
    rw [hrows]
    by_cases hE : (authorisedAssignments st₂).isEmpty = true <;> simp [hE]

/-- Witness for C10: `st0` and `st0'` agree except on stored passwords
and refresh tokens; all five read operations answer identically. -/
theorem c10_witness :
    (∀ p, (getUser p st0).1 = (getUser p st0').1) ∧
    (∀ p, (getGuard p st0).1 = (getGuard p st0').1) ∧
    (listAutherisedGuards st0).1 = (listAutherisedGuards st0').1 ∧
    (listUnassignedGuards st0).1 = (listUnassignedGuards st0').1 ∧
    (listAuthorisedGuards st0).1 = (listAuthorisedGuards st0').1 :=
  c10_reads_secret_independent st0 st0' (by decide) (by decide) (by decide)

/-! ## C6 — uniform error envelope -/

/-- Claim C6, counterexample. The claim that no controller signals
failure through any mechanism other than a thrown `ApiError` is false
for `checkRefreshToken`: on a request without a refresh token it
delivers the failure status 401 through the ordinary (non-thrown)
response channel, with a `{status}` body carrying no message. -/
theorem c6_counterexample :
    ¬ (∀ (req : RefreshReq) (st : St) (r : CheckResp),
        (userCheckRefreshToken req st).1 = .ok r → r.status < 400) := by
  intro h
  have hc := h { cookieRefreshToken := none, bodyRefreshToken := none } st0
    { status := 401, bodyStatus := 401 } rfl
  simp at hc

/-- Helper: the only error `userGenerateTokens` can throw. -/
theorem userGenerateTokens_error (uid : Nat) (st : St) (e : ApiError)
    (h : (userGenerateTokens uid st).1 = .error e) :
    e = ⟨404, "User not found"⟩ := by
  unfold userGenerateTokens at h
  split at h <;> simp_all

/-- Helper: the only error `guardGenerateTokens` can throw. -/
theorem guardGenerateTokens_error (gid : Nat) (st : St) (e : ApiError)
    (h : (guardGenerateTokens gid st).1 = .error e) :
    e = ⟨404, "Guard not found"⟩ := by
  unfold guardGenerateTokens at h
  split at h <;> simp_all

/-- Helper: every JSON response of `userRefreshAttempt` has status 200. -/
theorem userRefreshAttempt_ok_status (tok : Token) (st : St) (r : RefreshResp) (st' : St)
    (h : userRefreshAttempt tok st = (.ok r, st')) : r.status = 200 := by
  unfold userRefreshAttempt userGenerateTokens at h
  repeat' split at h
  all_goals simp_all
  all_goals (obtain ⟨h1, h2⟩ := h; rw [← h1])

/-- Helper: every JSON response of `guardRefreshAttempt` has status 200. -/
theorem guardRefreshAttempt_ok_status (tok : Token) (st : St) (r : RefreshResp) (st' : St)
    (h : guardRefreshAttempt tok st = (.ok r, st')) : r.status = 200 := by
  unfold guardRefreshAttempt guardGenerateTokens at h
  repeat' split at h
  all_goals simp_all
  all_goals (obtain ⟨h1, h2⟩ := h; rw [← h1])

/-- Claim C6, amended. Every failure path in the user and guard
controllers reports its error by throwing the single application error
type `ApiError` carrying an HTTP status code and a non-empty message,
and each controller's thrown envelopes are exactly the enumerated
`{status, message}` pairs below; success responses carry 200/201 — with
the single exception of `checkRefreshToken` (user and guard variants),
which signals a missing refresh token as a direct non-thrown response
of status 401 with a `{status}` body. -/
theorem c6_uniform_error_envelope :
    (∀ (env : Env) (req : RegisterUserReq) (st : St),
      UniformResult (fun r => r.status) [201]
        [⟨400, "All fields are required"⟩, ⟨409, "User already exists"⟩,
         ⟨400, "Avatar image is required"⟩, ⟨500, "Failed to upload avatar"⟩]
        (registerUser env req st)) ∧
    (∀ (env : Env) (jenv : JsonEnv) (req : RegisterGuardReq) (st : St),
      UniformResult (fun r => r.status) [201]
        [⟨400, "All fields are required"⟩, ⟨409, "Guard already exists"⟩,
         ⟨400, "Avatar image is required"⟩, ⟨500, "Failed to upload avatar"⟩,
         ⟨400, "Invalid workHistory format. Must be a JSON array."⟩]
        (registerGuard env jenv req st)) ∧
    (∀ (req : LoginReq) (st : St),
      UniformResult (fun r : LoginUserResp => r.status) [200]
        [⟨400, "Provide either username or email"⟩, ⟨404, "User not found"⟩,
         ⟨401, "Invalid credentials"⟩]
        (loginUser req st)) ∧
    (∀ (req : LoginReq) (st : St),
      UniformResult (fun r : LoginGuardResp => r.status) [200]
        [⟨400, "Provide either username or email"⟩, ⟨404, "Guard not found"⟩,
         ⟨401, "Invalid credentials"⟩]
        (loginGuard req st)) ∧
    (∀ (req : AuthedReq) (st : St),
      UniformResult (fun r : LogoutResp => r.status) [200] [] (logoutUser req st)) ∧
    (∀ (req : AuthedReq) (st : St),
      UniformResult (fun r : LogoutResp => r.status) [200] [] (logoutGuard req st)) ∧
    (∀ (req : RefreshReq) (st : St),
      UniformResult (fun r : RefreshResp => r.status) [200]
        [⟨401, "Unauthorized request"⟩, ⟨401, "Invalid refresh token"⟩]
        (userGetAccessToken req st)) ∧
    (∀ (req : RefreshReq) (st : St),
      UniformResult (fun r : RefreshResp => r.status) [200]
        [⟨401, "Unauthorized request"⟩, ⟨401, "Invalid refresh token"⟩]
        (guardGetAccessToken req st)) ∧
    (∀ (ru : Option PublicUser) (st : St),
      UniformResult (fun r : CurrentUserResp => r.status) [200] [] (getCurrentUser ru st)) ∧
    (∀ (rg : Option PublicGuard) (st : St),
      UniformResult (fun r : CurrentGuardResp => r.status) [200] [] (getCurrentGuard rg st)) ∧
    (∀ (req : RefreshReq) (st : St),
      UniformResult (fun r : CheckResp => r.status) [200, 401] []
        (userCheckRefreshToken req st)) ∧
    (∀ (req : RefreshReq) (st : St),
      UniformResult (fun r : CheckResp => r.status) [200, 401] []
        (guardCheckRefreshToken req st)) ∧
    (∀ (p : Option String) (st : St),
      UniformResult (fun r : GetUserResp => r.status) [200]
        [⟨400, "Username is required"⟩, ⟨404, "User not found"⟩] (getUser p st)) ∧
    (∀ (p : Option String) (st : St),
      UniformResult (fun r : GetGuardResp => r.status) [200]
        [⟨400, "Username is required"⟩, ⟨404, "Guard not found"⟩] (getGuard p st)) ∧
    (∀ (req : AuthoriseReq) (st : St),
      UniformResult (fun r : AuthoriseResp => r.status) [200]
        [⟨400, "You must provide feedback"⟩, ⟨400, "Guard ID is missing"⟩,
         ⟨404, "Guard not found"⟩] (authoriseGuard req st)) ∧
    (∀ (req : AppreciateReq) (st : St),
      UniformResult (fun r : AppreciateResp => r.status) [200]
        [⟨400, "Your ID is missing"⟩, ⟨400, "You must provide appreciation feedback"⟩,
         ⟨400, "User not found"⟩, ⟨400, "Guard ID is missing"⟩,
         ⟨404, "Guard not found"⟩] (appreciateGuard req st)) ∧
    (∀ st : St,
      UniformResult (fun r : GuardListResp => r.status) [200]
        [⟨404, "No unauthorised guards found"⟩] (listAutherisedGuards st)) ∧
    (∀ st : St,
      UniformResult (fun r : GuardListResp => r.status) [200]
        [⟨404, "No unassigned guards found"⟩] (listUnassignedGuards st)) ∧
    (∀ st : St,
      UniformResult (fun r : AssignmentListResp => r.status) [200]
        [⟨404, "No authorised guards found"⟩] (listAuthorisedGuards st)) ∧
    (∀ (ru : Option Nat) (st : St),
      UniformResult (fun r : DeploymentResp => r.status) [200]
        [⟨404, "NOT AUTHENTICATED"⟩, ⟨404, "Deployment not found"⟩]
        (getSingleGuardAssignment ru st)) ∧
    (∀ (req : WorkPercentReq) (st : St),
      UniformResult (fun r : WorkPercentResp => r.status) [200]
        [⟨404, "Guard not found or not authenticated"⟩,
         ⟨400, "Invalid work percent value (must be between 0-100)"⟩,
         ⟨500, "Failed to update work percent"⟩] (updateWorkPercent req st)) := by
  refine ⟨?_, ?_, ?_, ?_, ?_, ?_, ?_, ?_, ?_, ?_, ?_, ?_, ?_, ?_, ?_, ?_, ?_, ?_, ?_, ?_, ?_⟩
  · intro env req st
    refine ⟨fun e h => ?_, fun a h => ?_⟩ <;>
      (unfold registerUser at h
       try dsimp only at h
       repeat' split at h
       all_goals simp_all
       all_goals (subst h; first | rfl | simp))
  · intro env jenv req st
    refine ⟨fun e h => ?_, fun a h => ?_⟩ <;>
      (unfold registerGuard at h
       try dsimp only at h
       repeat' split at h
       all_goals simp_all
       all_goals (subst h; first | rfl | simp))
  · intro req st
    constructor
    · intro e h
      unfold loginUser at h
      repeat' split at h
      all_goals try (rename_i eX stX heqX; have he : eX = ApiError.mk 404 "User not found" := userGenerateTokens_error _ _ _ (by rw [heqX]))
      all_goals simp_all
    · intro a h
      unfold loginUser at h
      repeat' split at h
      all_goals simp_all
      all_goals (subst h; rfl)
  · intro req st
    constructor
    · intro e h
      unfold loginGuard at h
      repeat' split at h
      all_goals try (rename_i eX stX heqX; have he : eX = ApiError.mk 404 "Guard not found" := guardGenerateTokens_error _ _ _ (by rw [heqX]))
      all_goals simp_all
    · intro a h
      unfold loginGuard at h
      repeat' split at h
      all_goals simp_all
      all_goals (subst h; rfl)
  · intro req st
    refine ⟨fun e h => ?_, fun a h => ?_⟩ <;>
      (unfold logoutUser at h
       try dsimp only at h
       repeat' split at h
       all_goals simp_all
       all_goals (subst h; first | rfl | simp))
  · intro req st
    refine ⟨fun e h => ?_, fun a h => ?_⟩ <;>
      (unfold logoutGuard at h
       try dsimp only at h
       repeat' split at h
       all_goals simp_all
       all_goals (subst h; first | rfl | simp))
  · intro req st
    constructor
    · intro e h
      unfold userGetAccessToken at h
      repeat' split at h
      all_goals simp_all
    · intro a h
      unfold userGetAccessToken at h
      repeat' split at h
      all_goals simp_all
      all_goals (rename_i rX stX heqX; exact userRefreshAttempt_ok_status _ _ _ _ heqX)
  · intro req st
    constructor
    · intro e h
      unfold guardGetAccessToken at h
      repeat' split at h
      all_goals simp_all
    · intro a h
      unfold guardGetAccessToken at h
      repeat' split at h
      all_goals simp_all
      all_goals (rename_i rX stX heqX; exact guardRefreshAttempt_ok_status _ _ _ _ heqX)
  · intro ru st
    refine ⟨fun e h => ?_, fun a h => ?_⟩ <;>
      (unfold getCurrentUser at h
       try dsimp only at h
       repeat' split at h
       all_goals simp_all
       all_goals (subst h; first | rfl | simp))
  · intro rg st
    refine ⟨fun e h => ?_, fun a h => ?_⟩ <;>
      (unfold getCurrentGuard at h
       try dsimp only at h
       repeat' split at h
       all_goals simp_all
       all_goals (subst h; first | rfl | simp))
  · intro req st
    refine ⟨fun e h => ?_, fun a h => ?_⟩ <;>
      (unfold userCheckRefreshToken at h
       try dsimp only at h
       repeat' split at h
       all_goals simp_all
       all_goals (subst h; first | rfl | simp))
  · intro req st
    refine ⟨fun e h => ?_, fun a h => ?_⟩ <;>
      (unfold guardCheckRefreshToken at h
       try dsimp only at h
       repeat' split at h
       all_goals simp_all
       all_goals (subst h; first | rfl | simp))
  · intro p st
    refine ⟨fun e h => ?_, fun a h => ?_⟩ <;>
      (unfold getUser at h
       try dsimp only at h
       repeat' split at h
       all_goals simp_all
       all_goals (subst h; first | rfl | simp))
  · intro p st
    refine ⟨fun e h => ?_, fun a h => ?_⟩ <;>
      (unfold getGuard at h
       try dsimp only at h
       repeat' split at h
       all_goals simp_all
       all_goals (subst h; first | rfl | simp))
  · intro req st
    refine ⟨fun e h => ?_, fun a h => ?_⟩ <;>
      (unfold authoriseGuard at h
       try dsimp only at h
       repeat' split at h
       all_goals simp_all
       all_goals (subst h; first | rfl | simp))
  · intro req st
    refine ⟨fun e h => ?_, fun a h => ?_⟩ <;>
      (unfold appreciateGuard at h
       try dsimp only at h
       repeat' split at h
       all_goals simp_all
       all_goals (subst h; first | rfl | simp))
  · intro st
    refine ⟨fun e h => ?_, fun a h => ?_⟩ <;>
      (unfold listAutherisedGuards at h
       try dsimp only at h
       repeat' split at h
       all_goals simp_all
       all_goals (subst h; first | rfl | simp))
  · intro st
    refine ⟨fun e h => ?_, fun a h => ?_⟩ <;>
      (unfold listUnassignedGuards at h
       try dsimp only at h
       repeat' split at h
       all_goals simp_all
       all_goals (subst h; first | rfl | simp))
  · intro st
    refine ⟨fun e h => ?_, fun a h => ?_⟩ <;>
      (unfold listAuthorisedGuards at h
       try dsimp only at h
       repeat' split at h
       all_goals simp_all
       all_goals (subst h; first | rfl | simp))
  · intro ru st
    refine ⟨fun e h => ?_, fun a h => ?_⟩ <;>
      (unfold getSingleGuardAssignment at h
       try dsimp only at h
       repeat' split at h
       all_goals simp_all
       all_goals (subst h; first | rfl | simp))
  · intro req st
    refine ⟨fun e h => ?_, fun a h => ?_⟩ <;>
      (unfold updateWorkPercent at h
       try dsimp only at h
       repeat' split at h
       all_goals simp_all
       all_goals (subst h; first | rfl | simp))

/-- Witness for C6 (amended): a registration request with all fields
missing is rejected through the thrown `ApiError` channel with the
envelope 400 "All fields are required", which is among the enumerated
envelopes of `registerUser`. -/
theorem c6_witness :
    (⟨400, "All fields are required"⟩ : ApiError) ∈
      [(⟨400, "All fields are required"⟩ : ApiError),
       ⟨409, "User already exists"⟩, ⟨400, "Avatar image is required"⟩,
       ⟨500, "Failed to upload avatar"⟩] :=
  And.left (c6_uniform_error_envelope.1 env0
      { userName := none, fullName := none, email := none, password := none,
        role := none, avatarPath := none } st0)
    ⟨400, "All fields are required"⟩ rfl
